import Mathlib

/-!
Verification of the kapacitor repository specification.

The development shallowly embeds the Go source:
  - the pushover notification service (src/unnamed/part_000) and its test
    helper (src/services/pushover/pushovertest/pushovertest.go);
  - the server-side behaviours exercised by src/server/server_test.go.
The server implementation itself is not part of the provided sources, so
those behaviours are modelled from the specification (each such definition
carries a doc comment starting with the words Modelled from the spec).
-/

set_option maxRecDepth 4000

namespace Pushover

/-- Alert levels, embedding the four values of the Go alert.Level enum. -/
inductive Level where
  | okL
  | infoL
  | warningL
  | criticalL
deriving DecidableEq, Repr

/-- Embeds func priority(level alert.Level) int from the pushover service:
OK maps to -2, Info to -1, Warning to 1, Critical to 2. -/
def priority : Level → Int
  | .okL => -2
  | .infoL => -1
  | .warningL => 1
  | .criticalL => 2

/-- Embeds the fields of pushover.Config used by the service:
Enabled, Token, User and URL. -/
structure Config where
  enabled : Bool
  token : String
  user : String
  url : String
deriving DecidableEq, Repr

/-- Decimal digit character, code 48 + d. -/
def digitChar (d : Nat) : Char := Char.ofNat (48 + d)

/-- Little-endian decimal digits of n, computed with explicit fuel so the
definition is structurally recursive (fuel n suffices for input n). -/
def natDigitsRev : Nat → Nat → List Nat
  | 0, _ => []
  | fuel + 1, n => if n = 0 then [] else n % 10 :: natDigitsRev fuel (n / 10)

/-- With enough fuel, the fuelled digit extractor agrees with Nat.digits. -/
theorem natDigitsRev_eq_digits : ∀ fuel n, n ≤ fuel → natDigitsRev fuel n = Nat.digits 10 n := by
  intro fuel
  induction fuel with
  | zero =>
    intro n hn
    have : n = 0 := Nat.le_zero.mp hn
    subst this
    simp [natDigitsRev]
  | succ fuel ih =>
    intro n hn
    by_cases h : n = 0
    · subst h
      simp [natDigitsRev]
    · have hpos : 0 < n := Nat.pos_of_ne_zero h
      have hdiv : n / 10 ≤ fuel := by
        have : n / 10 < n := Nat.div_lt_self hpos (by norm_num)
        omega
      rw [natDigitsRev, if_neg h, ih _ hdiv, Nat.digits_def' (by norm_num) hpos]

/-- Decimal rendering of a natural number, as strconv.Itoa produces for
non-negative input: most-significant digit first, with 0 rendered as one
zero digit. -/
def natToStr (n : Nat) : String :=
  if n = 0 then "0" else String.mk ((natDigitsRev n n).reverse.map digitChar)

/-- The rendered character data is the big-endian digit list of n. -/
theorem natToStr_data (n : Nat) (h : n ≠ 0) :
    (natToStr n).data = ((Nat.digits 10 n).reverse.map digitChar) := by
  simp [natToStr, h, natDigitsRev_eq_digits n n le_rfl]

/-- Embeds strconv.Itoa: decimal rendering of an integer with a leading
minus sign for negative values. -/
def itoa (i : Int) : String :=
  if i < 0 then "-" ++ natToStr i.natAbs else natToStr i.natAbs

/-- Value of a decimal digit character, none for a non-digit. -/
def digitVal (c : Char) : Option Nat :=
  if 48 ≤ c.toNat ∧ c.toNat ≤ 57 then some (c.toNat - 48) else none

/-- Digit-accumulation loop of strconv.Atoi: consumes decimal digits,
failing on any non-digit character. -/
def parseNatLoop : List Char → Nat → Option Nat
  | [], acc => some acc
  | c :: cs, acc =>
    match digitVal c with
    | some d => parseNatLoop cs (acc * 10 + d)
    | none => none

/-- Embeds strconv.Atoi: an optional sign followed by one or more decimal
digits; anything else is a syntax error (none). Overflow is not modelled:
the integers here are unbounded. -/
def atoi (s : String) : Option Int :=
  match s.data with
  | [] => none
  | c :: rest =>
    if c = '-' then
      if rest.isEmpty then none else (parseNatLoop rest 0).map (fun n => -(n : Int))
    else if c = '+' then
      if rest.isEmpty then none else (parseNatLoop rest 0).map (fun n => (n : Int))
    else
      (parseNatLoop (c :: rest) 0).map (fun n => (n : Int))

/-- Embeds url.Values, which is the Go map type map[string][]string. -/
def UVals := String → List String

/-- Embeds the empty url.Values literal. -/
def uempty : UVals := fun _ => []

/-- Embeds url.Values.Set: the key now holds exactly one value. -/
def uset (m : UVals) (k val : String) : UVals :=
  fun q => if q = k then [val] else m q

/-- Embeds url.Values.Get: first value stored under the key, or the empty
string when the key is absent. -/
def uget (m : UVals) (k : String) : String :=
  (m k).headD ""

/-- Embeds the postData struct of the pushover service. The Timestamp
field stands for the optional *time.Time, rendered to its string form. -/
structure postData where
  Token : String
  User : String
  Message : String
  Device : String
  Title : String
  URL : String
  URLTitle : String
  Priority : Int
  Timestamp : Option String
  Sound : String
deriving DecidableEq, Repr

/-- Embeds func (p *postData) Values() url.Values: token, user, message
and priority are always set; device, title, url, url_title, sound and
timestamp only when non-empty (non-nil for the timestamp). -/
def postData.Values (p : postData) : UVals :=
  let v : UVals := uempty
  let v := uset v "token" p.Token
  let v := uset v "user" p.User
  let v := uset v "message" p.Message
  let v := uset v "priority" (itoa p.Priority)
  let v := if p.Device ≠ "" then uset v "device" p.Device else v
  let v := if p.Title ≠ "" then uset v "title" p.Title else v
  let v := if p.URL ≠ "" then uset v "url" p.URL else v
  let v := if p.URLTitle ≠ "" then uset v "url_title" p.URLTitle else v
  let v := if p.Sound ≠ "" then uset v "sound" p.Sound else v
  let v := match p.Timestamp with
    | some t => uset v "timestamp" t
    | none => v
  v

/-- Embeds the PostData struct of pushovertest: every field is read back
as a string except Priority, parsed with strconv.Atoi. -/
structure PostData where
  Token : String
  User : String
  Message : String
  Device : String
  Title : String
  URL : String
  URLTitle : String
  Sound : String
  Timestamp : String
  Priority : Int
deriving DecidableEq, Repr

/-- Embeds func NewPostData(v url.Values) (PostData, error) from
pushovertest: reads each form key, failing only when the priority value
does not parse as an integer. -/
def NewPostData (v : UVals) : Except String PostData :=
  match atoi (uget v "priority") with
  | none => Except.error "invalid syntax"
  | some pr =>
    Except.ok
      { Token := uget v "token"
        User := uget v "user"
        Message := uget v "message"
        Device := uget v "device"
        Title := uget v "title"
        URL := uget v "url"
        URLTitle := uget v "url_title"
        Sound := uget v "sound"
        Timestamp := uget v "timestamp"
        Priority := pr }

/-- Embeds func (s *Service) preparePost: with the currently stored
config c, a disabled service yields the error string, otherwise the
post URL is c.URL and the form is built from a postData whose user
defaults to c.User when the argument is empty. The Go code takes
time.Now() when timestamp is true; the rendered current time is passed
here as the explicit argument now. -/
def preparePost (c : Config) (user message device title URL URLTitle sound : String)
    (timestamp : Bool) (now : String) (level : Level) :
    Except String (String × UVals) :=
  if !c.enabled then
    Except.error "service is not enabled"
  else
    let p : postData :=
      { Token := c.token
        User := if user ≠ "" then user else c.user
        Message := message
        Device := device
        Title := title
        URL := URL
        URLTitle := URLTitle
        Priority := priority level
        Timestamp := if timestamp then some now else none
        Sound := sound }
    Except.ok (c.url, p.Values)

/-- Embeds func (s *Service) Alert up to the outbound http.PostForm call:
when preparePost fails, its error is returned and no request is made;
otherwise the request that Alert performs is returned. -/
def Alert (c : Config) (user message device title URL URLTitle sound : String)
    (timestamp : Bool) (now : String) (level : Level) :
    Except String (String × UVals) :=
  match preparePost c user message device title URL URLTitle sound timestamp now level with
  | Except.error e => Except.error e
  | Except.ok r => Except.ok r

/-- Every decimal digit renders to a character that parses back to itself. -/
theorem digitVal_digitChar : ∀ d : Nat, d < 10 → digitVal (digitChar d) = some d := by
  decide

/-- Digit characters are never a sign character. -/
theorem digitChar_ne_sign : ∀ d : Nat, d < 10 → digitChar d ≠ '-' ∧ digitChar d ≠ '+' := by
  decide

/-- The digit loop consumes a rendered digit list, accumulating its value. -/
theorem parseNatLoop_map (l : List Nat) (acc : Nat) (h : ∀ d ∈ l, d < 10) :
    parseNatLoop (l.map digitChar) acc = some (l.foldl (fun a d => a * 10 + d) acc) := by
  induction l generalizing acc with
  | nil => rfl
  | cons d l ih =>
    have hd : d < 10 := h d (List.mem_cons_self d l)
    have hl : ∀ x ∈ l, x < 10 := fun x hx => h x (List.mem_cons_of_mem d hx)
    simp only [List.map, parseNatLoop, digitVal_digitChar d hd, List.foldl]
    exact ih (acc * 10 + d) hl

/-- Left fold of the digit loop over big-endian digits recovers the number. -/
theorem foldl_digits (n : Nat) :
    (Nat.digits 10 n).reverse.foldl (fun a d => a * 10 + d) 0 = n := by
  rw [List.foldl_reverse]
  have h : ∀ l : List Nat, l.foldr (fun d a => a * 10 + d) 0 = Nat.ofDigits 10 l := by
    intro l
    induction l with
    | nil => simp [Nat.ofDigits]
    | cons d l ih =>
      simp only [List.foldr, ih, Nat.ofDigits_cons]
      ring
  calc (Nat.digits 10 n).foldr (fun x y => y * 10 + x) 0
      = Nat.ofDigits 10 (Nat.digits 10 n) := h _
    _ = n := Nat.ofDigits_digits 10 n

/-- Appending strings concatenates their character data. -/
theorem data_append (a b : String) : (a ++ b).data = a.data ++ b.data := by
  cases a
  cases b
  rfl

/-- The digit loop recovers a positive number from its rendering. -/
theorem parseNatLoop_natToStr (n : Nat) (h : n ≠ 0) :
    parseNatLoop (natToStr n).data 0 = some n := by
  have hd : ∀ d ∈ (Nat.digits 10 n).reverse, d < 10 := by
    intro d hdm
    exact Nat.digits_lt_base (by norm_num) (List.mem_reverse.mp hdm)
  rw [natToStr_data n h, parseNatLoop_map _ _ hd, foldl_digits]

/-- Parsing the rendering of a non-negative value: base case of the
round trip, covering the unsigned branch of atoi. -/
theorem atoi_natToStr (n : Nat) : atoi (natToStr n) = some (n : Int) := by
  by_cases h : n = 0
  · subst h
    decide
  · have hne : Nat.digits 10 n ≠ [] := Nat.digits_ne_nil_iff_ne_zero.mpr h
    have hdata : (natToStr n).data = ((Nat.digits 10 n).reverse.map digitChar) :=
      natToStr_data n h
    obtain ⟨d, rest, hrest⟩ : ∃ d rest, (Nat.digits 10 n).reverse = d :: rest := by
      rcases hl : (Nat.digits 10 n).reverse with _ | ⟨d, rest⟩
      · exact absurd (List.reverse_eq_nil_iff.mp hl) hne
      · exact ⟨d, rest, rfl⟩
    have hdlt : d < 10 := by
      have : d ∈ (Nat.digits 10 n).reverse := by rw [hrest]; exact List.mem_cons_self d rest
      exact Nat.digits_lt_base (by norm_num) (List.mem_reverse.mp this)
    have hsign := digitChar_ne_sign d hdlt
    rw [atoi]
    rw [hdata, hrest]
    simp only [List.map, hsign.1, hsign.2, if_neg, if_false]
    rw [show (digitChar d :: rest.map digitChar) = ((d :: rest).map digitChar) from rfl]
    rw [parseNatLoop_map (d :: rest) 0]
    · rw [← hrest, foldl_digits]
      rfl
    · intro x hx
      have : x ∈ (Nat.digits 10 n).reverse := by rw [hrest]; exact hx
      exact Nat.digits_lt_base (by norm_num) (List.mem_reverse.mp this)

/-- Parsing a string that begins with a minus sign followed by the given
non-empty digit-parsed tail yields the negated value. -/
theorem atoi_cons_neg (s : String) (cs : List Char) (hs : s.data = '-' :: cs)
    (h : cs.isEmpty = false) (n : Nat) (hp : parseNatLoop cs 0 = some n) :
    atoi s = some (-(n : Int)) := by
  unfold atoi
  rw [hs]
  simp [h, hp]

/-- Itoa then Atoi is the identity on integers. -/
theorem atoi_itoa (i : Int) : atoi (itoa i) = some i := by
  by_cases h : i < 0
  · have habs : i.natAbs ≠ 0 := by omega
    have hne : Nat.digits 10 i.natAbs ≠ [] := Nat.digits_ne_nil_iff_ne_zero.mpr habs
    have hdata : (natToStr i.natAbs).data =
        ((Nat.digits 10 i.natAbs).reverse.map digitChar) :=
      natToStr_data i.natAbs habs
    have hnonnil : (natToStr i.natAbs).data ≠ [] := by
      rw [hdata]
      simp [hne]
    have hdata2 : (itoa i).data = '-' :: (natToStr i.natAbs).data := by
      simp only [itoa, if_pos h, data_append]
      rfl
    have hempty : ((natToStr i.natAbs).data).isEmpty = false := by
      rcases hl : (natToStr i.natAbs).data with _ | ⟨c, cs⟩
      · exact absurd hl hnonnil
      · rfl
    rw [atoi_cons_neg (itoa i) _ hdata2 hempty i.natAbs (parseNatLoop_natToStr _ habs)]
    congr 1
    omega
  · rw [itoa, if_neg h, atoi_natToStr]
    congr 1
    omega

/-- Looking up the key just set returns the value just set. -/
theorem uget_uset_self (m : UVals) (k val : String) : uget (uset m k val) k = val := by
  simp [uget, uset]

/-- Setting one key leaves lookups of any other key unchanged. -/
theorem uget_uset_ne (m : UVals) (k k' val : String) (h : k' ≠ k) :
    uget (uset m k' val) k = uget m k := by
  have hk : k ≠ k' := Ne.symm h
  simp [uget, uset, hk]

/-- The empty form has no value under any key. -/
theorem uget_uempty (k : String) : uget uempty k = "" := rfl

/-- A conditional set of a different key leaves a lookup unchanged. -/
theorem uget_uset_ite_ne (c : Prop) [Decidable c] (m : UVals) (k' v k : String)
    (h : k' ≠ k) :
    uget (if c then uset m k' v else m) k = uget m k := by
  split_ifs with hc
  · exact uget_uset_ne m k k' v h
  · rfl

/-- A conditional set of the looked-up key yields the conditional value. -/
theorem uget_uset_ite_self (c : Prop) [Decidable c] (m : UVals) (k v : String) :
    uget (if c then uset m k v else m) k = if c then v else uget m k := by
  split_ifs with hc
  · exact uget_uset_self m k v
  · rfl

/-- The token form value is the postData token. -/
theorem uget_values_token (p : postData) : uget p.Values "token" = p.Token := by
  simp only [postData.Values]
  cases p.Timestamp <;>
    simp only [uget_uset_ite_ne, uget_uset_ite_self, uget_uset_ne, uget_uset_self,
      uget_uempty, ne_eq, String.reduceEq, not_false_eq_true] <;>
    (try (split_ifs <;> simp_all))

/-- The user form value is the postData user. -/
theorem uget_values_user (p : postData) : uget p.Values "user" = p.User := by
  simp only [postData.Values]
  cases p.Timestamp <;>
    simp only [uget_uset_ite_ne, uget_uset_ite_self, uget_uset_ne, uget_uset_self,
      uget_uempty, ne_eq, String.reduceEq, not_false_eq_true] <;>
    (try (split_ifs <;> simp_all))

/-- The message form value is the postData message. -/
theorem uget_values_message (p : postData) : uget p.Values "message" = p.Message := by
  simp only [postData.Values]
  cases p.Timestamp <;>
    simp only [uget_uset_ite_ne, uget_uset_ite_self, uget_uset_ne, uget_uset_self,
      uget_uempty, ne_eq, String.reduceEq, not_false_eq_true] <;>
    (try (split_ifs <;> simp_all))

/-- The priority form value is the rendered postData priority. -/
theorem uget_values_priority (p : postData) :
    uget p.Values "priority" = itoa p.Priority := by
  simp only [postData.Values]
  cases p.Timestamp <;>
    simp only [uget_uset_ite_ne, uget_uset_ite_self, uget_uset_ne, uget_uset_self,
      uget_uempty, ne_eq, String.reduceEq, not_false_eq_true] <;>
    (try (split_ifs <;> simp_all))

/-- The device form value is the postData device, also when empty. -/
theorem uget_values_device (p : postData) : uget p.Values "device" = p.Device := by
  simp only [postData.Values]
  cases p.Timestamp <;>
    simp only [uget_uset_ite_ne, uget_uset_ite_self, uget_uset_ne, uget_uset_self,
      uget_uempty, ne_eq, String.reduceEq, not_false_eq_true] <;>
    (try (split_ifs <;> simp_all))

/-- The title form value is the postData title, also when empty. -/
theorem uget_values_title (p : postData) : uget p.Values "title" = p.Title := by
  simp only [postData.Values]
  cases p.Timestamp <;>
    simp only [uget_uset_ite_ne, uget_uset_ite_self, uget_uset_ne, uget_uset_self,
      uget_uempty, ne_eq, String.reduceEq, not_false_eq_true] <;>
    (try (split_ifs <;> simp_all))

/-- The url form value is the postData URL, also when empty. -/
theorem uget_values_url (p : postData) : uget p.Values "url" = p.URL := by
  simp only [postData.Values]
  cases p.Timestamp <;>
    simp only [uget_uset_ite_ne, uget_uset_ite_self, uget_uset_ne, uget_uset_self,
      uget_uempty, ne_eq, String.reduceEq, not_false_eq_true] <;>
    (try (split_ifs <;> simp_all))

/-- The url_title form value is the postData URLTitle, also when empty. -/
theorem uget_values_url_title (p : postData) :
    uget p.Values "url_title" = p.URLTitle := by
  simp only [postData.Values]
  cases p.Timestamp <;>
    simp only [uget_uset_ite_ne, uget_uset_ite_self, uget_uset_ne, uget_uset_self,
      uget_uempty, ne_eq, String.reduceEq, not_false_eq_true] <;>
    (try (split_ifs <;> simp_all))

/-- The sound form value is the postData sound, also when empty. -/
theorem uget_values_sound (p : postData) : uget p.Values "sound" = p.Sound := by
  simp only [postData.Values]
  cases p.Timestamp <;>
    simp only [uget_uset_ite_ne, uget_uset_ite_self, uget_uset_ne, uget_uset_self,
      uget_uempty, ne_eq, String.reduceEq, not_false_eq_true] <;>
    (try (split_ifs <;> simp_all))

/-- C10: for every postData p, pushovertest.NewPostData applied to
p.Values() succeeds, and the resulting PostData agrees with p on Token,
User, Message, Device, Title, URL, URLTitle, Sound and Priority: form
encoding with Values and decoding with NewPostData is a round trip on
these nine fields. -/
theorem newPostData_values_roundtrip (p : postData) :
    ∃ q : PostData, NewPostData p.Values = Except.ok q ∧
      q.Token = p.Token ∧ q.User = p.User ∧ q.Message = p.Message ∧
      q.Device = p.Device ∧ q.Title = p.Title ∧ q.URL = p.URL ∧
      q.URLTitle = p.URLTitle ∧ q.Sound = p.Sound ∧ q.Priority = p.Priority := by
  refine ⟨{ Token := p.Token, User := p.User, Message := p.Message,
            Device := p.Device, Title := p.Title, URL := p.URL,
            URLTitle := p.URLTitle, Sound := p.Sound,
            Timestamp := uget p.Values "timestamp", Priority := p.Priority }, ?_,
          rfl, rfl, rfl, rfl, rfl, rfl, rfl, rfl, rfl⟩
  unfold NewPostData
  rw [uget_values_priority, atoi_itoa, uget_values_token, uget_values_user,
    uget_values_message, uget_values_device, uget_values_title, uget_values_url,
    uget_values_url_title, uget_values_sound]

/-- C9: while the stored config is disabled, preparePost returns the
error service is not enabled and Alert returns that same error without
issuing any HTTP request; with the config enabled, preparePost never
returns an error. -/
theorem alert_requires_enabled
    (c : Config) (user message device title URL URLTitle sound : String)
    (timestamp : Bool) (now : String) (level : Level) :
    (c.enabled = false →
      preparePost c user message device title URL URLTitle sound timestamp now level =
        Except.error "service is not enabled" ∧
      Alert c user message device title URL URLTitle sound timestamp now level =
        Except.error "service is not enabled") ∧
    (c.enabled = true →
      ∃ r, preparePost c user message device title URL URLTitle sound timestamp now level =
        Except.ok r) := by
  constructor
  · intro h
    have h1 : preparePost c user message device title URL URLTitle sound timestamp now level =
        Except.error "service is not enabled" := by
      simp [preparePost, h]
    exact ⟨h1, by simp [Alert, h1]⟩
  · intro h
    cases hpp : preparePost c user message device title URL URLTitle sound timestamp now level with
    | error e =>
      unfold preparePost at hpp
      simp [h] at hpp
    | ok r => exact ⟨r, rfl⟩

/-- Witness for C9: a concretely disabled config makes Alert fail with
the exact error, and a concretely enabled config makes preparePost
succeed. -/
theorem alert_requires_enabled_witness :
    (Alert ⟨false, "tok", "usr", "http://pushover"⟩ "" "msg" "" "" "" "" "" false "" Level.warningL =
      Except.error "service is not enabled") ∧
    (∃ r, preparePost ⟨true, "tok", "usr", "http://pushover"⟩ "" "msg" "" "" "" "" "" false ""
      Level.warningL = Except.ok r) :=
  ⟨((alert_requires_enabled ⟨false, "tok", "usr", "http://pushover"⟩ "" "msg" "" "" "" "" ""
      false "" Level.warningL).1 rfl).2,
   (alert_requires_enabled ⟨true, "tok", "usr", "http://pushover"⟩ "" "msg" "" "" "" "" ""
      false "" Level.warningL).2 rfl⟩

end Pushover

namespace TaskM

/-- Modelled from the spec: task status, disabled or enabled. -/
inductive Status where
  | disabled
  | enabled
deriving DecidableEq, Repr

/-- Modelled from the spec: a compiled TICKscript, reduced to what the
claims depend on — the declared vars that carry no default (required
vars) and the remaining script text. -/
structure Script where
  requiredVars : List String
  body : String
deriving DecidableEq, Repr

/-- Modelled from the spec: a task record with id, optional template
link, provided vars, materialized script and status. -/
structure Task where
  id : String
  templateID : Option String
  vars : List String
  script : Script
  status : Status
deriving DecidableEq, Repr

/-- Modelled from the spec: the task-manager state — template records,
task records, and the externally visible statistics counters num_tasks
and num_enabled_tasks. -/
structure State where
  templates : List (String × Script)
  tasks : List Task
  numTasks : Int
  numEnabledTasks : Int
deriving DecidableEq, Repr

/-- The codepoint intervals of the Unicode general categories Lu, Ll,
Lt, Lm and Lo — the letter class L of the Unicode character database. -/
def letterRanges : List (Nat × Nat) :=
  [(65, 90), (97, 122), (170, 170), (181, 181), (186, 186), (192, 214),
   (216, 246), (248, 705), (710, 721), (736, 740), (748, 748), (750, 750),
   (880, 884), (886, 887), (890, 893), (895, 895), (902, 902), (904, 906),
   (908, 908), (910, 929), (931, 1013), (1015, 1153), (1162, 1327), (1329, 1366),
   (1369, 1369), (1376, 1416), (1488, 1514), (1519, 1522), (1568, 1610), (1646, 1647),
   (1649, 1747), (1749, 1749), (1765, 1766), (1774, 1775), (1786, 1788), (1791, 1791),
   (1808, 1808), (1810, 1839), (1869, 1957), (1969, 1969), (1994, 2026), (2036, 2037),
   (2042, 2042), (2048, 2069), (2074, 2074), (2084, 2084), (2088, 2088), (2112, 2136),
   (2144, 2154), (2160, 2183), (2185, 2190), (2208, 2249), (2308, 2361), (2365, 2365),
   (2384, 2384), (2392, 2401), (2417, 2432), (2437, 2444), (2447, 2448), (2451, 2472),
   (2474, 2480), (2482, 2482), (2486, 2489), (2493, 2493), (2510, 2510), (2524, 2525),
   (2527, 2529), (2544, 2545), (2556, 2556), (2565, 2570), (2575, 2576), (2579, 2600),
   (2602, 2608), (2610, 2611), (2613, 2614), (2616, 2617), (2649, 2652), (2654, 2654),
   (2674, 2676), (2693, 2701), (2703, 2705), (2707, 2728), (2730, 2736), (2738, 2739),
   (2741, 2745), (2749, 2749), (2768, 2768), (2784, 2785), (2809, 2809), (2821, 2828),
   (2831, 2832), (2835, 2856), (2858, 2864), (2866, 2867), (2869, 2873), (2877, 2877),
   (2908, 2909), (2911, 2913), (2929, 2929), (2947, 2947), (2949, 2954), (2958, 2960),
   (2962, 2965), (2969, 2970), (2972, 2972), (2974, 2975), (2979, 2980), (2984, 2986),
   (2990, 3001), (3024, 3024), (3077, 3084), (3086, 3088), (3090, 3112), (3114, 3129),
   (3133, 3133), (3160, 3162), (3165, 3165), (3168, 3169), (3200, 3200), (3205, 3212),
   (3214, 3216), (3218, 3240), (3242, 3251), (3253, 3257), (3261, 3261), (3293, 3294),
   (3296, 3297), (3313, 3314), (3332, 3340), (3342, 3344), (3346, 3386), (3389, 3389),
   (3406, 3406), (3412, 3414), (3423, 3425), (3450, 3455), (3461, 3478), (3482, 3505),
   (3507, 3515), (3517, 3517), (3520, 3526), (3585, 3632), (3634, 3635), (3648, 3654),
   (3713, 3714), (3716, 3716), (3718, 3722), (3724, 3747), (3749, 3749), (3751, 3760),
   (3762, 3763), (3773, 3773), (3776, 3780), (3782, 3782), (3804, 3807), (3840, 3840),
   (3904, 3911), (3913, 3948), (3976, 3980), (4096, 4138), (4159, 4159), (4176, 4181),
   (4186, 4189), (4193, 4193), (4197, 4198), (4206, 4208), (4213, 4225), (4238, 4238),
   (4256, 4293), (4295, 4295), (4301, 4301), (4304, 4346), (4348, 4680), (4682, 4685),
   (4688, 4694), (4696, 4696), (4698, 4701), (4704, 4744), (4746, 4749), (4752, 4784),
   (4786, 4789), (4792, 4798), (4800, 4800), (4802, 4805), (4808, 4822), (4824, 4880),
   (4882, 4885), (4888, 4954), (4992, 5007), (5024, 5109), (5112, 5117), (5121, 5740),
   (5743, 5759), (5761, 5786), (5792, 5866), (5873, 5880), (5888, 5905), (5919, 5937),
   (5952, 5969), (5984, 5996), (5998, 6000), (6016, 6067), (6103, 6103), (6108, 6108),
   (6176, 6264), (6272, 6276), (6279, 6312), (6314, 6314), (6320, 6389), (6400, 6430),
   (6480, 6509), (6512, 6516), (6528, 6571), (6576, 6601), (6656, 6678), (6688, 6740),
   (6823, 6823), (6917, 6963), (6981, 6988), (7043, 7072), (7086, 7087), (7098, 7141),
   (7168, 7203), (7245, 7247), (7258, 7293), (7296, 7304), (7312, 7354), (7357, 7359),
   (7401, 7404), (7406, 7411), (7413, 7414), (7418, 7418), (7424, 7615), (7680, 7957),
   (7960, 7965), (7968, 8005), (8008, 8013), (8016, 8023), (8025, 8025), (8027, 8027),
   (8029, 8029), (8031, 8061), (8064, 8116), (8118, 8124), (8126, 8126), (8130, 8132),
   (8134, 8140), (8144, 8147), (8150, 8155), (8160, 8172), (8178, 8180), (8182, 8188),
   (8305, 8305), (8319, 8319), (8336, 8348), (8450, 8450), (8455, 8455), (8458, 8467),
   (8469, 8469), (8473, 8477), (8484, 8484), (8486, 8486), (8488, 8488), (8490, 8493),
   (8495, 8505), (8508, 8511), (8517, 8521), (8526, 8526), (8579, 8580), (11264, 11492),
   (11499, 11502), (11506, 11507), (11520, 11557), (11559, 11559), (11565, 11565), (11568, 11623),
   (11631, 11631), (11648, 11670), (11680, 11686), (11688, 11694), (11696, 11702), (11704, 11710),
   (11712, 11718), (11720, 11726), (11728, 11734), (11736, 11742), (11823, 11823), (12293, 12294),
   (12337, 12341), (12347, 12348), (12353, 12438), (12445, 12447), (12449, 12538), (12540, 12543),
   (12549, 12591), (12593, 12686), (12704, 12735), (12784, 12799), (13312, 19903), (19968, 42124),
   (42192, 42237), (42240, 42508), (42512, 42527), (42538, 42539), (42560, 42606), (42623, 42653),
   (42656, 42725), (42775, 42783), (42786, 42888), (42891, 42954), (42960, 42961), (42963, 42963),
   (42965, 42969), (42994, 43009), (43011, 43013), (43015, 43018), (43020, 43042), (43072, 43123),
   (43138, 43187), (43250, 43255), (43259, 43259), (43261, 43262), (43274, 43301), (43312, 43334),
   (43360, 43388), (43396, 43442), (43471, 43471), (43488, 43492), (43494, 43503), (43514, 43518),
   (43520, 43560), (43584, 43586), (43588, 43595), (43616, 43638), (43642, 43642), (43646, 43695),
   (43697, 43697), (43701, 43702), (43705, 43709), (43712, 43712), (43714, 43714), (43739, 43741),
   (43744, 43754), (43762, 43764), (43777, 43782), (43785, 43790), (43793, 43798), (43808, 43814),
   (43816, 43822), (43824, 43866), (43868, 43881), (43888, 44002), (44032, 55203), (55216, 55238),
   (55243, 55291), (63744, 64109), (64112, 64217), (64256, 64262), (64275, 64279), (64285, 64285),
   (64287, 64296), (64298, 64310), (64312, 64316), (64318, 64318), (64320, 64321), (64323, 64324),
   (64326, 64433), (64467, 64829), (64848, 64911), (64914, 64967), (65008, 65019), (65136, 65140),
   (65142, 65276), (65313, 65338), (65345, 65370), (65382, 65470), (65474, 65479), (65482, 65487),
   (65490, 65495), (65498, 65500), (65536, 65547), (65549, 65574), (65576, 65594), (65596, 65597),
   (65599, 65613), (65616, 65629), (65664, 65786), (66176, 66204), (66208, 66256), (66304, 66335),
   (66349, 66368), (66370, 66377), (66384, 66421), (66432, 66461), (66464, 66499), (66504, 66511),
   (66560, 66717), (66736, 66771), (66776, 66811), (66816, 66855), (66864, 66915), (66928, 66938),
   (66940, 66954), (66956, 66962), (66964, 66965), (66967, 66977), (66979, 66993), (66995, 67001),
   (67003, 67004), (67072, 67382), (67392, 67413), (67424, 67431), (67456, 67461), (67463, 67504),
   (67506, 67514), (67584, 67589), (67592, 67592), (67594, 67637), (67639, 67640), (67644, 67644),
   (67647, 67669), (67680, 67702), (67712, 67742), (67808, 67826), (67828, 67829), (67840, 67861),
   (67872, 67897), (67968, 68023), (68030, 68031), (68096, 68096), (68112, 68115), (68117, 68119),
   (68121, 68149), (68192, 68220), (68224, 68252), (68288, 68295), (68297, 68324), (68352, 68405),
   (68416, 68437), (68448, 68466), (68480, 68497), (68608, 68680), (68736, 68786), (68800, 68850),
   (68864, 68899), (69248, 69289), (69296, 69297), (69376, 69404), (69415, 69415), (69424, 69445),
   (69488, 69505), (69552, 69572), (69600, 69622), (69635, 69687), (69745, 69746), (69749, 69749),
   (69763, 69807), (69840, 69864), (69891, 69926), (69956, 69956), (69959, 69959), (69968, 70002),
   (70006, 70006), (70019, 70066), (70081, 70084), (70106, 70106), (70108, 70108), (70144, 70161),
   (70163, 70187), (70272, 70278), (70280, 70280), (70282, 70285), (70287, 70301), (70303, 70312),
   (70320, 70366), (70405, 70412), (70415, 70416), (70419, 70440), (70442, 70448), (70450, 70451),
   (70453, 70457), (70461, 70461), (70480, 70480), (70493, 70497), (70656, 70708), (70727, 70730),
   (70751, 70753), (70784, 70831), (70852, 70853), (70855, 70855), (71040, 71086), (71128, 71131),
   (71168, 71215), (71236, 71236), (71296, 71338), (71352, 71352), (71424, 71450), (71488, 71494),
   (71680, 71723), (71840, 71903), (71935, 71942), (71945, 71945), (71948, 71955), (71957, 71958),
   (71960, 71983), (71999, 71999), (72001, 72001), (72096, 72103), (72106, 72144), (72161, 72161),
   (72163, 72163), (72192, 72192), (72203, 72242), (72250, 72250), (72272, 72272), (72284, 72329),
   (72349, 72349), (72368, 72440), (72704, 72712), (72714, 72750), (72768, 72768), (72818, 72847),
   (72960, 72966), (72968, 72969), (72971, 73008), (73030, 73030), (73056, 73061), (73063, 73064),
   (73066, 73097), (73112, 73112), (73440, 73458), (73648, 73648), (73728, 74649), (74880, 75075),
   (77712, 77808), (77824, 78894), (82944, 83526), (92160, 92728), (92736, 92766), (92784, 92862),
   (92880, 92909), (92928, 92975), (92992, 92995), (93027, 93047), (93053, 93071), (93760, 93823),
   (93952, 94026), (94032, 94032), (94099, 94111), (94176, 94177), (94179, 94179), (94208, 100343),
   (100352, 101589), (101632, 101640), (110576, 110579), (110581, 110587), (110589, 110590), (110592, 110882),
   (110928, 110930), (110948, 110951), (110960, 111355), (113664, 113770), (113776, 113788), (113792, 113800),
   (113808, 113817), (119808, 119892), (119894, 119964), (119966, 119967), (119970, 119970), (119973, 119974),
   (119977, 119980), (119982, 119993), (119995, 119995), (119997, 120003), (120005, 120069), (120071, 120074),
   (120077, 120084), (120086, 120092), (120094, 120121), (120123, 120126), (120128, 120132), (120134, 120134),
   (120138, 120144), (120146, 120485), (120488, 120512), (120514, 120538), (120540, 120570), (120572, 120596),
   (120598, 120628), (120630, 120654), (120656, 120686), (120688, 120712), (120714, 120744), (120746, 120770),
   (120772, 120779), (122624, 122654), (123136, 123180), (123191, 123197), (123214, 123214), (123536, 123565),
   (123584, 123627), (124896, 124902), (124904, 124907), (124909, 124910), (124912, 124926), (124928, 125124),
   (125184, 125251), (125259, 125259), (126464, 126467), (126469, 126495), (126497, 126498), (126500, 126500),
   (126503, 126503), (126505, 126514), (126516, 126519), (126521, 126521), (126523, 126523), (126530, 126530),
   (126535, 126535), (126537, 126537), (126539, 126539), (126541, 126543), (126545, 126546), (126548, 126548),
   (126551, 126551), (126553, 126553), (126555, 126555), (126557, 126557), (126559, 126559), (126561, 126562),
   (126564, 126564), (126567, 126570), (126572, 126578), (126580, 126583), (126585, 126588), (126590, 126590),
   (126592, 126601), (126603, 126619), (126625, 126627), (126629, 126633), (126635, 126651), (131072, 173791),
   (173824, 177976), (177984, 178205), (178208, 183969), (183984, 191456), (194560, 195101), (196608, 201546)]

/-- The codepoint intervals of the Unicode general categories Nd, Nl and
No — the number class N of the Unicode character database. -/
def numberRanges : List (Nat × Nat) :=
  [(48, 57), (178, 179), (185, 185), (188, 190), (1632, 1641), (1776, 1785),
   (1984, 1993), (2406, 2415), (2534, 2543), (2548, 2553), (2662, 2671), (2790, 2799),
   (2918, 2927), (2930, 2935), (3046, 3058), (3174, 3183), (3192, 3198), (3302, 3311),
   (3416, 3422), (3430, 3448), (3558, 3567), (3664, 3673), (3792, 3801), (3872, 3891),
   (4160, 4169), (4240, 4249), (4969, 4988), (5870, 5872), (6112, 6121), (6128, 6137),
   (6160, 6169), (6470, 6479), (6608, 6618), (6784, 6793), (6800, 6809), (6992, 7001),
   (7088, 7097), (7232, 7241), (7248, 7257), (8304, 8304), (8308, 8313), (8320, 8329),
   (8528, 8578), (8581, 8585), (9312, 9371), (9450, 9471), (10102, 10131), (11517, 11517),
   (12295, 12295), (12321, 12329), (12344, 12346), (12690, 12693), (12832, 12841), (12872, 12879),
   (12881, 12895), (12928, 12937), (12977, 12991), (42528, 42537), (42726, 42735), (43056, 43061),
   (43216, 43225), (43264, 43273), (43472, 43481), (43504, 43513), (43600, 43609), (44016, 44025),
   (65296, 65305), (65799, 65843), (65856, 65912), (65930, 65931), (66273, 66299), (66336, 66339),
   (66369, 66369), (66378, 66378), (66513, 66517), (66720, 66729), (67672, 67679), (67705, 67711),
   (67751, 67759), (67835, 67839), (67862, 67867), (68028, 68029), (68032, 68047), (68050, 68095),
   (68160, 68168), (68221, 68222), (68253, 68255), (68331, 68335), (68440, 68447), (68472, 68479),
   (68521, 68527), (68858, 68863), (68912, 68921), (69216, 69246), (69405, 69414), (69457, 69460),
   (69573, 69579), (69714, 69743), (69872, 69881), (69942, 69951), (70096, 70105), (70113, 70132),
   (70384, 70393), (70736, 70745), (70864, 70873), (71248, 71257), (71360, 71369), (71472, 71483),
   (71904, 71922), (72016, 72025), (72784, 72812), (73040, 73049), (73120, 73129), (73664, 73684),
   (74752, 74862), (92768, 92777), (92864, 92873), (93008, 93017), (93019, 93025), (93824, 93846),
   (119520, 119539), (119648, 119672), (120782, 120831), (123200, 123209), (123632, 123641), (125127, 125135),
   (125264, 125273), (126065, 126123), (126125, 126127), (126129, 126132), (126209, 126253), (126255, 126269),
   (127232, 127244), (130032, 130041)]

/-- Membership of a codepoint in a list of closed intervals. -/
def inRanges (rs : List (Nat × Nat)) (n : Nat) : Bool :=
  rs.any (fun r => r.1 ≤ n && n ≤ r.2)

/-- Modelled from the spec: the letter class of the id pattern — a
character matches the regexp class p-brace-L exactly when its general
category is one of Lu, Ll, Lt, Lm, Lo. -/
def isLetter (c : Char) : Bool :=
  inRanges letterRanges c.toNat

/-- Modelled from the spec: the number class of the id pattern — a
character matches the regexp class p-brace-N exactly when its general
category is one of Nd, Nl, No. -/
def isNumberChar (c : Char) : Bool :=
  inRanges numberRanges c.toNat

/-- Modelled from the spec: one character of the id pattern, a Unicode
letter, a Unicode number, or one of the three punctuation characters. -/
def isValidIDChar (c : Char) : Bool :=
  isLetter c || isNumberChar c || c = '-' || c = '.' || c = '_'

/-- Modelled from the spec: an id is valid when it is a non-empty string
of valid id characters. -/
def validID (s : String) : Bool :=
  !s.isEmpty && s.data.all isValidIDChar

/-- Modelled from the spec: the exact invalid-id error message, with the
resource kind prefix and the offending id quoted. -/
def idErr (kind id : String) : String :=
  kind ++ " ID must contain only letters, numbers, '-', '.' and '_'. \"" ++ id ++ "\""

/-- Modelled from the spec: materializing a script against the provided
vars fails on the first declared var without a value. -/
def materialize (s : Script) (vars : List String) : Except String Script :=
  match s.requiredVars.find? (fun v => !(vars.contains v)) with
  | some v => Except.error ("missing value for var \"" ++ v ++ "\".")
  | none => Except.ok s

/-- Template lookup by id. -/
def templateOf (st : State) (tid : String) : Option Script :=
  (st.templates.find? (fun p => p.1 == tid)).map (fun p => p.2)

/-- Task lookup by id. -/
def taskOf (st : State) (id : String) : Option Task :=
  st.tasks.find? (fun t => t.id == id)

/-- Modelled from the spec: resolving a task script — through its linked
template when one is named, directly otherwise; a materialization
failure is surfaced as an invalid TICKscript compile error. -/
def resolveScript (st : State) (tmpl : Option String) (script : Script)
    (vars : List String) : Except String Script :=
  match tmpl with
  | none =>
    match materialize script vars with
    | Except.error e => Except.error ("invalid TICKscript: " ++ e)
    | Except.ok s => Except.ok s
  | some tid =>
    match templateOf st tid with
    | none => Except.error ("unknown template " ++ tid)
    | some ts =>
      match materialize ts vars with
      | Except.error e => Except.error ("invalid TICKscript: " ++ e)
      | Except.ok s => Except.ok s

/-- Contribution of a status to the enabled-tasks counter. -/
def enabledInc (status : Status) : Int :=
  if status = Status.enabled then 1 else 0

/-- Modelled from the spec: CreateTemplate validates the id and the
absence of a duplicate, then records the template. -/
def createTemplate (st : State) (id : String) (script : Script) : State × Option String :=
  if !(validID id) then (st, some (idErr "template" id))
  else if (templateOf st id).isSome then (st, some ("template " ++ id ++ " already exists"))
  else ({ st with templates := st.templates ++ [(id, script)] }, none)

/-- Modelled from the spec: CreateTask validates the id regex, rejects a
duplicate id, resolves (compiles) the script, then records the task and
bumps the statistics counters; any failure leaves the state unchanged. -/
def createTask (st : State) (id : String) (tmpl : Option String) (vars : List String)
    (script : Script) (status : Status) : State × Option String :=
  if !(validID id) then (st, some (idErr "task" id))
  else if (taskOf st id).isSome then (st, some ("task " ++ id ++ " already exists"))
  else
    match resolveScript st tmpl script vars with
    | Except.error e => (st, some e)
    | Except.ok s =>
      ({ st with tasks := st.tasks ++ [⟨id, tmpl, vars, s, status⟩],
                 numTasks := st.numTasks + 1,
                 numEnabledTasks := st.numEnabledTasks + enabledInc status }, none)

/-- Replace the status of the first task with the given id. -/
def setStatusFirst : List Task → String → Status → List Task
  | [], _, _ => []
  | t :: ts, id, s =>
    if t.id = id then { t with status := s } :: ts else t :: setStatusFirst ts id s

/-- Modelled from the spec: UpdateTask restricted to status toggles —
the stored status is replaced and the enabled-tasks counter adjusted by
the difference. -/
def updateTaskStatus (st : State) (id : String) (status : Status) : State × Option String :=
  match taskOf st id with
  | none => (st, some ("task " ++ id ++ " does not exist"))
  | some t =>
    ({ st with tasks := setStatusFirst st.tasks id status,
               numEnabledTasks := st.numEnabledTasks + enabledInc status - enabledInc t.status },
     none)

/-- Remove the first task with the given id. -/
def removeFirst : List Task → String → List Task
  | [], _ => []
  | t :: ts, id => if t.id = id then ts else t :: removeFirst ts id

/-- Modelled from the spec: DeleteTask removes the record and decrements
the statistics counters; deleting an absent id is a no-op. -/
def deleteTask (st : State) (id : String) : State × Option String :=
  match taskOf st id with
  | none => (st, none)
  | some t =>
    ({ st with tasks := removeFirst st.tasks id,
               numTasks := st.numTasks - 1,
               numEnabledTasks := st.numEnabledTasks - enabledInc t.status }, none)

/-- Modelled from the spec: re-materialize every task linked to the
template against the new template script, stopping at the first task
whose vars no longer satisfy it. -/
def reloadTasks (ns : Script) (tid : String) : List Task → Except (Task × String) (List Task)
  | [] => Except.ok []
  | t :: ts =>
    if t.templateID = some tid then
      match materialize ns t.vars with
      | Except.error m => Except.error (t, m)
      | Except.ok s =>
        match reloadTasks ns tid ts with
        | Except.error x => Except.error x
        | Except.ok ts2 => Except.ok ({ t with script := s } :: ts2)
    else
      match reloadTasks ns tid ts with
      | Except.error x => Except.error x
      | Except.ok ts2 => Except.ok (t :: ts2)

/-- Modelled from the spec: UpdateTemplate compiles the new script
against every linked task; if any task fails to reload, the whole update
aborts with an error naming that task, and no record changes; otherwise
the template and all linked tasks are replaced. -/
def updateTemplate (st : State) (tid : String) (ns : Script) : State × Option String :=
  match templateOf st tid with
  | none => (st, some ("template " ++ tid ++ " does not exist"))
  | some _ =>
    match reloadTasks ns tid st.tasks with
    | Except.error (t, m) =>
      (st, some ("error reloading associated task " ++ t.id ++ ": " ++ m))
    | Except.ok ts =>
      ({ st with
          templates := st.templates.map (fun p => if p.1 == tid then (tid, ns) else p),
          tasks := ts }, none)

/-- The reload failure, if any, of one task against a new template script. -/
def reloadError (ns : Script) (t : Task) : Option String :=
  match materialize ns t.vars with
  | Except.error m => some m
  | Except.ok _ => none

/-- The tasks linked to a template. -/
def linkedTasks (st : State) (tid : String) : List Task :=
  st.tasks.filter (fun t => t.templateID == some tid)

/-- The empty task-manager state. -/
def initState : State := ⟨[], [], 0, 0⟩

/-- Modelled from the spec: the control-plane task mutations the
statistics claim ranges over. -/
inductive Op where
  | createT (id : String) (tmpl : Option String) (vars : List String)
      (script : Script) (status : Status)
  | setStatus (id : String) (status : Status)
  | deleteT (id : String)

/-- Apply one mutation; a failed mutation leaves the state unchanged. -/
def applyOp (st : State) : Op → State
  | .createT id tmpl vars script status => (createTask st id tmpl vars script status).1
  | .setStatus id status => (updateTaskStatus st id status).1
  | .deleteT id => (deleteTask st id).1

/-- Apply a sequence of mutations from left to right. -/
def applyOps (st : State) (ops : List Op) : State := ops.foldl applyOp st

/-- Number of enabled tasks in a task list. -/
def enabledCount (ts : List Task) : Int :=
  ((ts.filter (fun t => t.status == Status.enabled)).length : Int)

/-- The statistics counters agree with the derived counts. -/
def statsOK (st : State) : Prop :=
  st.numTasks = (st.tasks.length : Int) ∧ st.numEnabledTasks = enabledCount st.tasks

end TaskM

namespace TaskM

/-- Enabled count of a cons is the head contribution plus the tail count. -/
theorem enabledCount_cons (u : Task) (ts : List Task) :
    enabledCount (u :: ts) = enabledInc u.status + enabledCount ts := by
  by_cases h : u.status = Status.enabled <;>
    simp [enabledCount, enabledInc, List.filter_cons, h] <;> push_cast <;> ring

/-- Enabled count distributes over append. -/
theorem enabledCount_append (l1 l2 : List Task) :
    enabledCount (l1 ++ l2) = enabledCount l1 + enabledCount l2 := by
  simp only [enabledCount, List.filter_append, List.length_append]
  push_cast
  ring

/-- Setting a status keeps the number of tasks. -/
theorem setStatusFirst_length (l : List Task) (id : String) (s : Status) :
    (setStatusFirst l id s).length = l.length := by
  induction l with
  | nil => rfl
  | cons u l ih =>
    by_cases hu : u.id = id <;> simp [setStatusFirst, hu, ih]

/-- Setting the status of the first task with the given id shifts the
enabled count by the status difference. -/
theorem setStatusFirst_enabledCount (l : List Task) (id : String) (s : Status) (t : Task)
    (h : l.find? (fun u => u.id == id) = some t) :
    enabledCount (setStatusFirst l id s) = enabledCount l + enabledInc s - enabledInc t.status := by
  induction l with
  | nil => simp at h
  | cons u l ih =>
    by_cases hu : u.id = id
    · have ht : u = t := by
        rw [List.find?_cons_of_pos _ (by simp [hu])] at h
        exact Option.some.inj h
      subst ht
      simp only [setStatusFirst, if_pos hu, enabledCount_cons]
      ring
    · have h' : l.find? (fun u => u.id == id) = some t := by
        rwa [List.find?_cons_of_neg _ (by simp [hu])] at h
      simp only [setStatusFirst, if_neg hu, enabledCount_cons, ih h']
      ring

/-- Removing the first task with the given id drops the length by one. -/
theorem removeFirst_length (l : List Task) (id : String) (t : Task)
    (h : l.find? (fun u => u.id == id) = some t) :
    (removeFirst l id).length + 1 = l.length := by
  induction l with
  | nil => simp at h
  | cons u l ih =>
    by_cases hu : u.id = id
    · simp [removeFirst, hu]
    · have h' : l.find? (fun u => u.id == id) = some t := by
        rwa [List.find?_cons_of_neg _ (by simp [hu])] at h
      simp [removeFirst, hu, ih h']

/-- Removing the first task with the given id drops the enabled count by
its contribution. -/
theorem removeFirst_enabledCount (l : List Task) (id : String) (t : Task)
    (h : l.find? (fun u => u.id == id) = some t) :
    enabledCount (removeFirst l id) = enabledCount l - enabledInc t.status := by
  induction l with
  | nil => simp at h
  | cons u l ih =>
    by_cases hu : u.id = id
    · have ht : u = t := by
        rw [List.find?_cons_of_pos _ (by simp [hu])] at h
        exact Option.some.inj h
      subst ht
      simp only [removeFirst, if_pos hu, enabledCount_cons]
      ring
    · have h' : l.find? (fun u => u.id == id) = some t := by
        rwa [List.find?_cons_of_neg _ (by simp [hu])] at h
      simp only [removeFirst, if_neg hu, enabledCount_cons, ih h']
      ring

/-- Every single mutation preserves agreement of the counters with the
derived counts. -/
theorem statsOK_applyOp (st : State) (op : Op) (h : statsOK st) : statsOK (applyOp st op) := by
  obtain ⟨hn, he⟩ := h
  cases op with
  | createT id tmpl vars script status =>
    show statsOK (createTask st id tmpl vars script status).1
    unfold createTask
    split_ifs with h1 h2
    · exact ⟨hn, he⟩
    · exact ⟨hn, he⟩
    · cases hres : resolveScript st tmpl script vars with
      | error e => exact ⟨hn, he⟩
      | ok s =>
        refine ⟨?_, ?_⟩
        · simp only [List.length_append, List.length_cons, List.length_nil]
          push_cast
          omega
        · rw [enabledCount_append, ← he, enabledCount_cons]
          simp [enabledCount]
  | setStatus id status =>
    show statsOK (updateTaskStatus st id status).1
    unfold updateTaskStatus
    cases ht : taskOf st id with
    | none => exact ⟨hn, he⟩
    | some t =>
      refine ⟨?_, ?_⟩
      · simpa [setStatusFirst_length] using hn
      · rw [setStatusFirst_enabledCount st.tasks id status t ht, ← he]
  | deleteT id =>
    show statsOK (deleteTask st id).1
    unfold deleteTask
    cases ht : taskOf st id with
    | none => exact ⟨hn, he⟩
    | some t =>
      refine ⟨?_, ?_⟩
      · have := removeFirst_length st.tasks id t ht
        push_cast [← this] at hn ⊢
        omega
      · rw [removeFirst_enabledCount st.tasks id t ht, ← he]

/-- Mutation sequences preserve the agreement. -/
theorem statsOK_applyOps (st : State) (ops : List Op) (h : statsOK st) :
    statsOK (applyOps st ops) := by
  induction ops generalizing st with
  | nil => exact h
  | cons op ops ih => exact ih (applyOp st op) (statsOK_applyOp st op h)

/-- C4: after any sequence of CreateTask, UpdateTask status toggles and
DeleteTask operations starting from the empty state, the externally
visible statistics report num_tasks equal to the number of existing
tasks and num_enabled_tasks equal to the number of enabled tasks. -/
theorem taskNums_statistics (ops : List Op) :
    (applyOps initState ops).numTasks = ((applyOps initState ops).tasks.length : Int) ∧
    (applyOps initState ops).numEnabledTasks = enabledCount (applyOps initState ops).tasks :=
  statsOK_applyOps initState ops ⟨rfl, rfl⟩

end TaskM

namespace TaskM

/-- A successful reload gives every linked task the new template script. -/
theorem reloadTasks_ok_script (ns : Script) (tid : String) :
    ∀ ts ts2, reloadTasks ns tid ts = Except.ok ts2 →
      ∀ t ∈ ts2, t.templateID = some tid → t.script = ns := by
  intro ts
  induction ts with
  | nil =>
    intro ts2 h t htmem _
    have : ts2 = [] := (Except.ok.inj h).symm
    subst this
    simp at htmem
  | cons u ts ih =>
    intro ts2 h t htmem hlink
    have h2 := h
    by_cases hl : u.templateID = some tid
    · cases hm : materialize ns u.vars with
      | error m => simp [reloadTasks, if_pos hl, hm] at h2
      | ok s =>
        have hs : s = ns := by
          unfold materialize at hm
          cases hf : ns.requiredVars.find? (fun v => !(u.vars.contains v)) with
          | some v => rw [hf] at hm; simp at hm
          | none => rw [hf] at hm; exact (Except.ok.inj hm).symm
        cases hrec : reloadTasks ns tid ts with
        | error x => simp [reloadTasks, if_pos hl, hm, hrec] at h2
        | ok ts3 =>
          simp only [reloadTasks, if_pos hl, hm, hrec] at h2
          have hlist : ({ u with script := s } :: ts3) = ts2 := Except.ok.inj h2
          subst hlist
          rcases List.mem_cons.mp htmem with hhead | htail
          · subst hhead
            exact hs
          · exact ih ts3 hrec t htail hlink
    · cases hrec : reloadTasks ns tid ts with
      | error x => simp [reloadTasks, if_neg hl, hrec] at h2
      | ok ts3 =>
        simp only [reloadTasks, if_neg hl, hrec] at h2
        have hlist : (u :: ts3) = ts2 := Except.ok.inj h2
        subst hlist
        rcases List.mem_cons.mp htmem with hhead | htail
        · subst hhead
          exact absurd hlink hl
        · exact ih ts3 hrec t htail hlink

/-- A failed reload fails at exactly the first linked task that does not
materialize, with that task's materialization error. -/
theorem reloadTasks_error_find (ns : Script) (tid : String) :
    ∀ ts t m, reloadTasks ns tid ts = Except.error (t, m) →
      (ts.filter (fun u => u.templateID == some tid)).find?
          (fun u => (reloadError ns u).isSome) = some t ∧
        reloadError ns t = some m := by
  intro ts
  induction ts with
  | nil => intro t m h; simp [reloadTasks] at h
  | cons u ts ih =>
    intro t m h
    have h2 := h
    by_cases hl : u.templateID = some tid
    · cases hm : materialize ns u.vars with
      | error m0 =>
        simp only [reloadTasks, if_pos hl, hm] at h2
        have hpair : ((u, m0) : Task × String) = (t, m) := Except.error.inj h2
        have hu : u = t := congrArg Prod.fst hpair
        have hm1 : m0 = m := congrArg Prod.snd hpair
        subst hu
        subst hm1
        have hre : reloadError ns u = some m0 := by simp [reloadError, hm]
        refine ⟨?_, hre⟩
        rw [List.filter_cons_of_pos (by simp [hl])]
        rw [List.find?_cons_of_pos _ (by simp [hre])]
      | ok s =>
        cases hrec : reloadTasks ns tid ts with
        | error x =>
          simp only [reloadTasks, if_pos hl, hm, hrec] at h2
          have hx : x = (t, m) := Except.error.inj h2
          subst hx
          obtain ⟨ihf, ihe⟩ := ih t m hrec
          have hre : reloadError ns u = none := by simp [reloadError, hm]
          refine ⟨?_, ihe⟩
          rw [List.filter_cons_of_pos (by simp [hl])]
          rw [List.find?_cons_of_neg _ (by simp [hre]), ihf]
        | ok ts3 => simp [reloadTasks, if_pos hl, hm, hrec] at h2
    · cases hrec : reloadTasks ns tid ts with
      | error x =>
        simp only [reloadTasks, if_neg hl, hrec] at h2
        have hx : x = (t, m) := Except.error.inj h2
        subst hx
        obtain ⟨ihf, ihe⟩ := ih t m hrec
        refine ⟨?_, ihe⟩
        rw [List.filter_cons_of_neg (by simp [hl]), ihf]
      | ok ts3 => simp [reloadTasks, if_neg hl, hrec] at h2

/-- C1: updating a template's script either succeeds and leaves every
linked task carrying the new script, or fails leaving the whole state —
in particular every linked task's script — unchanged, with the returned
error naming the first linked task whose vars no longer materialize,
prefixed error reloading associated task. -/
theorem updateTemplate_atomic (st : State) (tid : String) (ns : Script)
    (hex : (templateOf st tid).isSome) :
    ((updateTemplate st tid ns).2 = none →
      ∀ t ∈ (updateTemplate st tid ns).1.tasks, t.templateID = some tid → t.script = ns) ∧
    (∀ e, (updateTemplate st tid ns).2 = some e →
      (updateTemplate st tid ns).1 = st ∧
      ∃ t m, (linkedTasks st tid).find? (fun u => (reloadError ns u).isSome) = some t ∧
        reloadError ns t = some m ∧
        e = "error reloading associated task " ++ t.id ++ ": " ++ m) := by
  obtain ⟨tpl, htpl⟩ := Option.isSome_iff_exists.mp hex
  have hdef : updateTemplate st tid ns =
      (match reloadTasks ns tid st.tasks with
       | Except.error (t, m) =>
         (st, some ("error reloading associated task " ++ t.id ++ ": " ++ m))
       | Except.ok ts =>
         ({ st with
             templates := st.templates.map (fun p => if p.1 == tid then (tid, ns) else p),
             tasks := ts }, none)) := by
    unfold updateTemplate
    rw [htpl]
  cases hrel : reloadTasks ns tid st.tasks with
  | error x =>
    obtain ⟨t0, m0⟩ := x
    rw [hrel] at hdef
    constructor
    · intro hnone
      rw [hdef] at hnone
      simp at hnone
    · intro e he
      rw [hdef] at he ⊢
      obtain ⟨hf, hm⟩ := reloadTasks_error_find ns tid st.tasks t0 m0 hrel
      refine ⟨rfl, t0, m0, ?_, hm, ?_⟩
      · exact hf
      · exact (Option.some.inj he).symm
  | ok ts =>
    rw [hrel] at hdef
    constructor
    · intro _ t htmem hlink
      rw [hdef] at htmem
      exact reloadTasks_ok_script ns tid st.tasks ts hrel t htmem hlink
    · intro e he
      rw [hdef] at he
      simp at he

/-- Witness for C1: a concrete template with one linked task whose vars
lack the newly declared var period; the update fails with the exact
error of the first failing task and leaves the state unchanged. -/
theorem updateTemplate_atomic_witness :
    (updateTemplate
        ⟨[("tmpl", ⟨["field"], "b"⟩)],
         [⟨"testStreamTask-0", some "tmpl", ["field"], ⟨["field"], "b"⟩, Status.enabled⟩],
         1, 1⟩
        "tmpl" ⟨["field", "period"], "b2"⟩).1 =
      ⟨[("tmpl", ⟨["field"], "b"⟩)],
       [⟨"testStreamTask-0", some "tmpl", ["field"], ⟨["field"], "b"⟩, Status.enabled⟩],
       1, 1⟩ ∧
    ∃ t m,
      (linkedTasks
          ⟨[("tmpl", ⟨["field"], "b"⟩)],
           [⟨"testStreamTask-0", some "tmpl", ["field"], ⟨["field"], "b"⟩, Status.enabled⟩],
           1, 1⟩ "tmpl").find?
          (fun u => (reloadError ⟨["field", "period"], "b2"⟩ u).isSome) = some t ∧
      reloadError ⟨["field", "period"], "b2"⟩ t = some m ∧
      "error reloading associated task testStreamTask-0: missing value for var \"period\"." =
        "error reloading associated task " ++ t.id ++ ": " ++ m :=
  (updateTemplate_atomic
      ⟨[("tmpl", ⟨["field"], "b"⟩)],
       [⟨"testStreamTask-0", some "tmpl", ["field"], ⟨["field"], "b"⟩, Status.enabled⟩],
       1, 1⟩
      "tmpl" ⟨["field", "period"], "b2"⟩ (by decide)).2
    "error reloading associated task testStreamTask-0: missing value for var \"period\"."
    (by decide)

end TaskM

namespace TaskM

/-- C5: CreateTask rejects exactly the ids outside the id pattern — for
an invalid id nothing is created and the exact quoted error is returned;
a valid id passes validation, and absent a duplicate or a script error
the task is created. -/
theorem createTask_id_validation (st : State) (id : String) (tmpl : Option String)
    (vars : List String) (script : Script) (status : Status) :
    (validID id = false →
      createTask st id tmpl vars script status =
        (st, some ("task ID must contain only letters, numbers, '-', '.' and '_'. \"" ++
          id ++ "\""))) ∧
    (validID id = true → taskOf st id = none →
      ∀ s, resolveScript st tmpl script vars = Except.ok s →
        createTask st id tmpl vars script status =
          ({ st with tasks := st.tasks ++ [⟨id, tmpl, vars, s, status⟩],
                     numTasks := st.numTasks + 1,
                     numEnabledTasks := st.numEnabledTasks + enabledInc status }, none)) := by
  constructor
  · intro h
    have hlit : ("task" : String) ++
        " ID must contain only letters, numbers, '-', '.' and '_'. \"" =
        "task ID must contain only letters, numbers, '-', '.' and '_'. \"" := rfl
    simp only [createTask, h, idErr, Bool.not_false, if_true]
    rw [hlit]
  · intro hv ht s hres
    simp [createTask, hv, ht, hres]

/-- Witness for C5: the ids tásk7, задача7 and λx (Latin, Cyrillic and
Greek letters) are valid; tásk7 is accepted and creates the task; the id
invalid id (with a space) is rejected with the exact error and creates
nothing. -/
theorem createTask_id_validation_witness :
    validID "tásk7" = true ∧ validID "задача7" = true ∧ validID "λx" = true ∧
    (createTask initState "tásk7" none [] ⟨[], "s"⟩ Status.disabled).2 = none ∧
    createTask initState "invalid id" none [] ⟨[], "s"⟩ Status.disabled =
      (initState,
        some "task ID must contain only letters, numbers, '-', '.' and '_'. \"invalid id\"") :=
  ⟨by decide, by decide, by decide,
   by
    rw [(createTask_id_validation initState "tásk7" none [] ⟨[], "s"⟩ Status.disabled).2
      (by decide) rfl ⟨[], "s"⟩ rfl],
   (createTask_id_validation initState "invalid id" none [] ⟨[], "s"⟩ Status.disabled).1
     (by decide)⟩

/-- C6: creating a task linked to a template that declares var field
with no value supplied for field fails with exactly the error invalid
TICKscript: missing value for var field, and the task is not created. -/
theorem template_missing_var_scenario :
    createTask
        (createTemplate initState "testStreamTemplate" ⟨["field"], "tick"⟩).1
        "testStreamTask" (some "testStreamTemplate") [] ⟨[], ""⟩ Status.enabled =
      ((createTemplate initState "testStreamTemplate" ⟨["field"], "tick"⟩).1,
        some "invalid TICKscript: missing value for var \"field\".") := by
  decide

end TaskM

namespace AlertSub

/-- Modelled from the spec: the four alert levels. -/
inductive Level where
  | okL
  | infoL
  | warningL
  | criticalL
deriving DecidableEq, Repr

/-- Modelled from the spec: the stored state of one alert event —
message, details, time, duration since the event first left OK, and
level. -/
structure EventState where
  message : String
  details : String
  time : Nat
  duration : Nat
  level : Level
deriving DecidableEq, Repr

/-- Modelled from the spec: an alert node of a stream task — its stable
node id, its id/message/details templates, the optional crit, warn and
info lambdas over the point value, and the measurement filter of the
from node feeding it. -/
structure AlertNode where
  nodeID : String
  idTmpl : String
  msgTmpl : String
  detailsTmpl : String
  critP : Option (Int → Bool)
  warnP : Option (Int → Bool)
  infoP : Option (Int → Bool)
  measurement : String

/-- Modelled from the spec: a stream task reduced to its id and its
single alert node. -/
structure TaskDef where
  id : String
  node : AlertNode

/-- An absent lambda never triggers. -/
def matchOpt : Option (Int → Bool) → Int → Bool
  | none, _ => false
  | some p, v => p v

/-- Modelled from the spec: evaluate crit, warn, info in order; the
highest triggered level wins, OK otherwise. -/
def evalLevel (n : AlertNode) (v : Int) : Level :=
  if matchOpt n.critP v then Level.criticalL
  else if matchOpt n.warnP v then Level.warningL
  else if matchOpt n.infoP v then Level.infoL
  else Level.okL

/-- Modelled from the spec: the anonymous topic of a task's alert node,
main:task-id:node-id. -/
def anonTopic (taskID nodeID : String) : String :=
  "main:" ++ taskID ++ ":" ++ nodeID

/-- A topic store: topic id to its events (event id to state). -/
abbrev Topics := List (String × List (String × EventState))

/-- Topic lookup. -/
def topicsGet (ts : Topics) (tid : String) : Option (List (String × EventState)) :=
  (ts.find? (fun p => p.1 == tid)).map (fun p => p.2)

/-- Replace (or create) a topic's event list. -/
def topicsSet (ts : Topics) (tid : String) (evts : List (String × EventState)) : Topics :=
  if (ts.find? (fun p => p.1 == tid)).isSome then
    ts.map (fun p => if p.1 == tid then (tid, evts) else p)
  else ts ++ [(tid, evts)]

/-- Delete a topic. -/
def topicsDel (ts : Topics) (tid : String) : Topics :=
  ts.filter (fun p => !(p.1 == tid))

/-- An event update overwrites the prior state for its event id. -/
def setEvent (evts : List (String × EventState)) (eid : String) (es : EventState) :
    List (String × EventState) :=
  if (evts.find? (fun p => p.1 == eid)).isSome then
    evts.map (fun p => if p.1 == eid then (eid, es) else p)
  else evts ++ [(eid, es)]

/-- Modelled from the spec: the server state the anonymous-topic claim
ranges over — whether the single task is enabled, the live topic store,
and the persisted topic store. -/
structure SState where
  enabled : Bool
  topics : Topics
  persisted : Topics

/-- Modelled from the spec: enabling the task re-creates its anonymous
topic from the persisted store when persisted state exists. -/
def enableTask (td : TaskDef) (st : SState) : SState :=
  let topic := anonTopic td.id td.node.nodeID
  let st2 : SState := { st with enabled := true }
  match topicsGet st2.persisted topic with
  | some evts => { st2 with topics := topicsSet st2.topics topic evts }
  | none => st2

/-- Modelled from the spec: disabling the task removes its anonymous
topic from the live store, keeping the persisted event state. -/
def disableTask (td : TaskDef) (st : SState) : SState :=
  { st with enabled := false,
            topics := topicsDel st.topics (anonTopic td.id td.node.nodeID) }

/-- Modelled from the spec: a written point that passes the task's
measurement filter while the task is enabled is evaluated by the alert
node; the resulting event state overwrites the event in the anonymous
topic, both live and persisted. The duration is the time since the event
first left OK, zero for a fresh event. -/
def writePoint (td : TaskDef) (st : SState) (meas : String) (v : Int) (t : Nat) : SState :=
  if st.enabled && (meas == td.node.measurement) then
    let topic := anonTopic td.id td.node.nodeID
    let lvl := evalLevel td.node v
    let evts := (topicsGet st.topics topic).getD []
    let prior := (evts.find? (fun p => p.1 == td.node.idTmpl)).map (fun p => p.2)
    let dur := match prior with
      | some pr => if pr.level ≠ Level.okL then t - (pr.time - pr.duration) else 0
      | none => 0
    let es : EventState := ⟨td.node.msgTmpl, td.node.detailsTmpl, t, dur, lvl⟩
    let evts2 := setEvent evts td.node.idTmpl es
    { st with topics := topicsSet st.topics topic evts2,
              persisted := topicsSet st.persisted topic evts2 }
  else st

/-- Modelled from the spec: a server restart keeps the persisted store
and reconstitutes the live anonymous topic of the enabled task from it;
a disabled task gets no topic. -/
def restart (td : TaskDef) (st : SState) : SState :=
  let topic := anonTopic td.id td.node.nodeID
  { st with
      topics :=
        if st.enabled then
          match topicsGet st.persisted topic with
          | some evts => [(topic, evts)]
          | none => []
        else [] }

/-- Modelled from the spec: listing a topic's events fails when the
topic does not exist in the live store. -/
def listTopicEvents (st : SState) (topic : String) :
    Except String (List (String × EventState)) :=
  match topicsGet st.topics topic with
  | some evts => Except.ok evts
  | none => Except.error ("topic \"" ++ topic ++ "\" does not exist")

/-- The task of the anonymous-topic scenario: id testAlertHandlers, an
alert node alert2 with id/message/details templates, warn value <= 1.0,
crit value > 1.0, reading measurement alert. -/
def c2Task : TaskDef :=
  ⟨"testAlertHandlers",
   ⟨"alert2", "id", "message", "details",
    some (fun v => decide (v > 1)), some (fun v => decide (v ≤ 1)), none, "alert"⟩⟩

/-- The scenario state after enabling the task and writing the point
alert value=1 0. -/
def c2S1 : SState := writePoint c2Task (enableTask c2Task ⟨false, [], []⟩) "alert" 1 0

/-- The single expected WARNING event. -/
def c2Event : List (String × EventState) :=
  [("id", ⟨"message", "details", 0, 0, Level.warningL⟩)]

end AlertSub

namespace AlertSub

/-- C2: enabling the task and writing alert value=1 0 yields exactly one
event, level WARNING, under the anonymous topic
main:testAlertHandlers:alert2; disabling the task removes the topic so
listing its events fails with the exact does-not-exist error;
re-enabling re-creates it with the same event state; and a restart
preserves it. -/
theorem anonTopic_scenario :
    listTopicEvents c2S1 "main:testAlertHandlers:alert2" = Except.ok c2Event ∧
    listTopicEvents (disableTask c2Task c2S1) "main:testAlertHandlers:alert2" =
      Except.error "topic \"main:testAlertHandlers:alert2\" does not exist" ∧
    listTopicEvents (enableTask c2Task (disableTask c2Task c2S1))
      "main:testAlertHandlers:alert2" = Except.ok c2Event ∧
    listTopicEvents (restart c2Task (enableTask c2Task (disableTask c2Task c2S1)))
      "main:testAlertHandlers:alert2" = Except.ok c2Event :=
  ⟨rfl, rfl, rfl, rfl⟩

end AlertSub

namespace KJson

/-- Modelled from the spec: the JSON documents exchanged by the control
plane — strings, integers, booleans, arrays and objects with ordered
members. -/
inductive Json where
  | str : String → Json
  | num : Int → Json
  | bool : Bool → Json
  | arr : List Json → Json
  | obj : List (String × Json) → Json

/-- The empty JSON document. -/
def emptyDoc : Json := Json.obj []

mutual

/-- Render a JSON value to its compact textual form. -/
def render : Json → String
  | Json.str s => "\"" ++ s ++ "\""
  | Json.num i => Pushover.itoa i
  | Json.bool b => if b then "true" else "false"
  | Json.arr xs => "[" ++ renderArr xs ++ "]"
  | Json.obj kvs => "\x7b" ++ renderObj kvs ++ "\x7d"

/-- Render array elements, comma separated. -/
def renderArr : List Json → String
  | [] => ""
  | [x] => render x
  | x :: xs => render x ++ "," ++ renderArr xs

/-- Render object members, comma separated. -/
def renderObj : List (String × Json) → String
  | [] => ""
  | [(k, v)] => "\"" ++ k ++ "\":" ++ render v
  | (k, v) :: kvs => "\"" ++ k ++ "\":" ++ render v ++ "," ++ renderObj kvs

end

end KJson

namespace HOut

/-- Modelled from the spec: an httpOut node keeps the latest emitted
value; each emission overwrites the stored snapshot. -/
def hoUpdate (_state : Option KJson.Json) (emitted : KJson.Json) : Option KJson.Json :=
  some emitted

/-- The node state after a sequence of emissions, starting empty. -/
def hoRun (es : List KJson.Json) : Option KJson.Json :=
  es.foldl hoUpdate none

/-- Modelled from the spec: the read-only endpoint returns the stored
snapshot, or the empty document before any emission. -/
def hoGet (s : Option KJson.Json) : KJson.Json :=
  s.getD KJson.emptyDoc

/-- The stored snapshot after any emission sequence is its last element. -/
theorem hoRun_eq_getLast (es : List KJson.Json) : hoRun es = es.getLast? := by
  induction es using List.reverseRecOn with
  | nil => rfl
  | append_singleton xs x ih =>
    simp [hoRun, List.foldl_append, hoUpdate, List.getLast?_concat]

/-- C7: for an httpOut node, the endpoint returns the empty document
while nothing has been emitted — in particular before the first
emission — and the latest emitted snapshot afterwards; the empty
document renders as two braces. -/
theorem httpOut_endpoint (es : List KJson.Json) :
    hoGet (hoRun es) = (es.getLast?).getD KJson.emptyDoc ∧
    KJson.render (hoGet (hoRun [])) = "\x7b\x7d" := by
  constructor
  · unfold hoGet
    rw [hoRun_eq_getLast]
  · rfl

end HOut

namespace JPatch

open KJson

/-- Modelled from the spec: the JSON-Patch operations PATCH supports —
add, remove and replace, each against a JSON-Pointer path. -/
inductive JOp where
  | add (path : String) (v : Json)
  | remove (path : String)
  | replace (path : String) (v : Json)

/-- Split the character tail of a JSON-Pointer into segments at each
slash. -/
def segsAux : List Char → List Char → List String
  | [], cur => [String.mk cur.reverse]
  | '/' :: cs, cur => String.mk cur.reverse :: segsAux cs []
  | c :: cs, cur => segsAux cs (c :: cur)

/-- Modelled from the spec: JSON-Pointer parsing, a leading slash then
slash-separated segments. -/
def splitPath (s : String) : List String :=
  match s.data with
  | '/' :: cs => segsAux cs []
  | cs => segsAux cs []

/-- Parse a pointer segment as an array index. -/
def parseIdx (s : String) : Option Nat :=
  match s.data with
  | [] => none
  | cs => Pushover.parseNatLoop cs 0

/-- Lookup of an object member. -/
def objGet (kvs : List (String × Json)) (k : String) : Option Json :=
  (kvs.find? (fun p => p.1 == k)).map (fun p => p.2)

/-- Replace the value of an existing object member in place. -/
def objReplaceVal (kvs : List (String × Json)) (k : String) (nv : Json) :
    List (String × Json) :=
  kvs.map (fun q => if q.1 == k then (q.1, nv) else q)

/-- Set an object member: replace it in place or append it. -/
def objSet (kvs : List (String × Json)) (k : String) (v : Json) : List (String × Json) :=
  if (kvs.find? (fun p => p.1 == k)).isSome then objReplaceVal kvs k v
  else kvs ++ [(k, v)]

/-- Insert into a list before the given index. -/
def listInsertAt (xs : List Json) (i : Nat) (v : Json) : List Json :=
  xs.take i ++ [v] ++ xs.drop i

/-- Modelled from the spec: the replace operation — the path must
resolve, and the resolved value is swapped for the new one. -/
def replaceAt : List String → Json → Json → Option Json
  | [], _, v => some v
  | s :: rest, Json.obj kvs, v =>
    match objGet kvs s with
    | none => none
    | some x =>
      match replaceAt rest x v with
      | none => none
      | some nv => some (Json.obj (objReplaceVal kvs s nv))
  | s :: rest, Json.arr xs, v =>
    match parseIdx s with
    | none => none
    | some i =>
      match xs.get? i with
      | none => none
      | some x =>
        match replaceAt rest x v with
        | none => none
        | some nv => some (Json.arr (xs.set i nv))
  | _ :: _, _, _ => none

/-- Modelled from the spec: the remove operation — the addressed member
or element is dropped. -/
def removeAt : List String → Json → Option Json
  | [], _ => none
  | s :: rest, Json.obj kvs =>
    match objGet kvs s with
    | none => none
    | some x =>
      match rest with
      | [] => some (Json.obj (kvs.filter (fun q => !(q.1 == s))))
      | _ =>
        match removeAt rest x with
        | none => none
        | some nv => some (Json.obj (objReplaceVal kvs s nv))
  | s :: rest, Json.arr xs => 
    match parseIdx s with
    | none => none
    | some i =>
      match xs.get? i with
      | none => none
      | some x =>
        match rest with
        | [] => some (Json.arr (xs.eraseIdx i))
        | _ =>
          match removeAt rest x with
          | none => none
          | some nv => some (Json.arr (xs.set i nv))
  | _ :: _, _ => none

/-- Modelled from the spec: the add operation, with the dash segment
appending to a list. -/
def addAt : List String → Json → Json → Option Json
  | [], _, v => some v
  | [s], Json.obj kvs, v => some (Json.obj (objSet kvs s v))
  | [s], Json.arr xs, v =>
    if s = "-" then some (Json.arr (xs ++ [v]))
    else
      match parseIdx s with
      | none => none
      | some i => if i ≤ xs.length then some (Json.arr (listInsertAt xs i v)) else none
  | s :: rest, Json.obj kvs, v =>
    match objGet kvs s with
    | none => none
    | some x =>
      match addAt rest x v with
      | none => none
      | some nv => some (Json.obj (objReplaceVal kvs s nv))
  | s :: rest, Json.arr xs, v =>
    match parseIdx s with
    | none => none
    | some i =>
      match xs.get? i with
      | none => none
      | some x =>
        match addAt rest x v with
        | none => none
        | some nv => some (Json.arr (xs.set i nv))
  | _ :: _, _, _ => none

/-- Apply one patch operation to a document. -/
def jApplyOp (j : Json) (op : JOp) : Option Json :=
  match op with
  | JOp.add p v => addAt (splitPath p) j v
  | JOp.remove p => removeAt (splitPath p) j
  | JOp.replace p v => replaceAt (splitPath p) j v

/-- Apply a patch — a list of operations — from left to right. -/
def jApplyPatch (j : Json) (ops : List JOp) : Option Json :=
  ops.foldl (fun acc op => acc.bind (fun d => jApplyOp d op)) (some j)

/-- Modelled from the spec: one action of a handler, its kind and its
open option map. -/
structure HandlerAction where
  kind : String
  options : List (String × Json)

/-- Modelled from the spec: a handler — id, subscribed topics, and its
ordered actions. -/
structure Handler where
  id : String
  topics : List String
  actions : List HandlerAction

/-- The JSON document of a handler, as the control plane serves it. -/
def handlerToJson (h : Handler) : Json :=
  Json.obj
    [("id", Json.str h.id),
     ("topics", Json.arr (h.topics.map Json.str)),
     ("actions", Json.arr (h.actions.map (fun a =>
       Json.obj [("kind", Json.str a.kind), ("options", Json.obj a.options)])))]

/-- Decode a JSON array of strings. -/
def strList : List Json → Option (List String)
  | [] => some []
  | Json.str s :: xs =>
    match strList xs with
    | none => none
    | some ss => some (s :: ss)
  | _ :: _ => none

/-- Decode one handler action. -/
def actionOfJson : Json → Option HandlerAction
  | Json.obj kvs =>
    match objGet kvs "kind", objGet kvs "options" with
    | some (Json.str k), some (Json.obj opts) => some ⟨k, opts⟩
    | _, _ => none
  | _ => none

/-- Decode a JSON array of handler actions. -/
def actionsList : List Json → Option (List HandlerAction)
  | [] => some []
  | x :: xs =>
    match actionOfJson x, actionsList xs with
    | some a, some rest => some (a :: rest)
    | _, _ => none

/-- Decode a handler document. -/
def handlerOfJson : Json → Option Handler
  | Json.obj kvs =>
    match objGet kvs "id", objGet kvs "topics", objGet kvs "actions" with
    | some (Json.str id), some (Json.arr ts), some (Json.arr as) =>
      match strList ts, actionsList as with
      | some topics, some actions => some ⟨id, topics, actions⟩
      | _, _ => none
    | _, _, _ => none
  | _ => none

/-- Modelled from the spec: PATCH on a handler applies the JSON-Patch to
the handler's document and stores the decoded result. -/
def patchHandler (h : Handler) (ops : List JOp) : Option Handler :=
  (jApplyPatch (handlerToJson h) ops).bind handlerOfJson

/-- C8: patching the handler with topics system and test and one slack
action with channel #test, by removing /topics/0 and replacing
/actions/0/options/channel with #kapacitor_test, yields the handler with
topics exactly test, the slack channel #kapacitor_test, and every other
field unchanged. -/
theorem handler_patch_scenario :
    patchHandler
        ⟨"myhandler", ["system", "test"], [⟨"slack", [("channel", Json.str "#test")]⟩]⟩
        [JOp.remove "/topics/0",
         JOp.replace "/actions/0/options/channel" (Json.str "#kapacitor_test")] =
      some ⟨"myhandler", ["test"], [⟨"slack", [("channel", Json.str "#kapacitor_test")]⟩]⟩ :=
  rfl

end JPatch

namespace StreamCount

/-- Modelled from the spec: a stream point — measurement, the single
value field, and a timestamp in whole seconds. -/
structure Point where
  measurement : String
  value : Int
  time : Nat
deriving DecidableEq, Repr

/-- Modelled from the spec: a window batch — its end time and the points
it contains. -/
structure Batch where
  stop : Nat
  points : List Point
deriving DecidableEq, Repr

/-- The window node state: buffered points and the next emit boundary. -/
structure WState where
  buffer : List Point
  nextEmit : Nat
deriving DecidableEq, Repr

/-- Modelled from the spec: window(period, every) driven by a stream —
when a point at or past the next every boundary arrives, a batch is
emitted per elapsed boundary holding the buffered points of the last
period before that boundary (an empty group does not emit); the point is
then buffered. -/
def windowStep (period every : Nat) (st : WState) (p : Point) : WState × List Batch :=
  let k := if st.nextEmit ≤ p.time then (p.time - st.nextEmit) / every + 1 else 0
  let bounds := (List.range k).map (fun i => st.nextEmit + i * every)
  let batches := bounds.filterMap (fun stop =>
    let pts := st.buffer.filter (fun q => stop - period ≤ q.time && q.time < stop)
    if pts.isEmpty then none else some ⟨stop, pts⟩)
  (⟨st.buffer ++ [p], st.nextEmit + k * every⟩, batches)

/-- The pipeline state: the window state and the latest count row held
by httpOut, as the pair batch-end time and count. -/
structure PState where
  w : WState
  lastOut : Option (Nat × Nat)
deriving DecidableEq, Repr

/-- Modelled from the spec: one inbound point flows from() with its
measurement filter, then window, then count — which reduces each batch
to a single row stamped at the batch end — then httpOut, which keeps the
latest row. -/
def pipeStep (meas : String) (period every : Nat) (st : PState) (p : Point) : PState :=
  if p.measurement == meas then
    let r := windowStep period every st.w p
    let out := r.2.foldl (fun _ b => some (b.stop, b.points.length)) st.lastOut
    ⟨r.1, out⟩
  else st

/-- Run the task over a written point sequence; the first window
boundary is one every interval past the epoch. -/
def runPipe (meas : String) (period every : Nat) (points : List Point) : PState :=
  points.foldl (pipeStep meas period every) ⟨⟨[], every⟩, none⟩

/-- Two-digit decimal rendering. -/
def two (n : Nat) : String :=
  if n < 10 then "0" ++ Pushover.natToStr n else Pushover.natToStr n

/-- Modelled from the spec: RFC3339 UTC rendering of an epoch-seconds
timestamp within the first day. -/
def formatEpoch (t : Nat) : String :=
  "1970-01-01T" ++ two (t / 3600) ++ ":" ++ two (t % 3600 / 60) ++ ":" ++ two (t % 60) ++ "Z"

/-- Modelled from the spec: the JSON body served for the task's count
endpoint — the empty document before any batch, otherwise one series
named after the measurement with columns time and count and the single
latest row. -/
def httpOutJson (meas : String) (st : PState) : KJson.Json :=
  match st.lastOut with
  | none => KJson.emptyDoc
  | some (t, c) =>
    KJson.Json.obj
      [("series", KJson.Json.arr
        [KJson.Json.obj
          [("name", KJson.Json.str meas),
           ("columns", KJson.Json.arr [KJson.Json.str "time", KJson.Json.str "count"]),
           ("values", KJson.Json.arr
             [KJson.Json.arr [KJson.Json.str (formatEpoch t), KJson.Json.num (c : Int)]])]])]

/-- The 17 written points: 15 with timestamps in the first ten seconds,
2 at seconds 10 and 11. -/
def c3Points : List Point :=
  [⟨"test", 1, 0⟩, ⟨"test", 1, 1⟩, ⟨"test", 1, 1⟩, ⟨"test", 1, 2⟩, ⟨"test", 1, 2⟩,
   ⟨"test", 1, 3⟩, ⟨"test", 1, 3⟩, ⟨"test", 1, 4⟩, ⟨"test", 1, 5⟩, ⟨"test", 1, 5⟩,
   ⟨"test", 1, 5⟩, ⟨"test", 1, 6⟩, ⟨"test", 1, 7⟩, ⟨"test", 1, 8⟩, ⟨"test", 1, 9⟩,
   ⟨"test", 1, 10⟩, ⟨"test", 1, 11⟩]

/-- C3: with window period and every of ten seconds, after the 17 writes
the count endpoint serves exactly one row — the 15 points of the first
ten-second window, stamped at the batch end 00:00:10. -/
theorem stream_count_scenario :
    KJson.render (httpOutJson "test" (runPipe "test" 10 10 c3Points)) =
      "\x7b\"series\":[\x7b\"name\":\"test\",\"columns\":[\"time\",\"count\"],\"values\":[[\"1970-01-01T00:00:10Z\",15]]\x7d]\x7d" :=
  rfl

end StreamCount
